import Mathlib

/-!
Verification of the esp32cam cloud relay servers.

The repository ships two server variants inside `src/server.js` and a third
HTTP-only session server in `src/unnamed/part_000`:

* variant A (server.js lines 1-382): Firebase relay with maps
  `sessions` (deviceId -> session), `clients` (deviceId -> camera ws) and
  `viewers` (deviceId -> Set of viewer ws);
* variant B (server.js lines 383-612): MJPEG relay with maps
  `devices` (deviceId -> ws), `lastFrame` (deviceId -> jpeg bytes) and
  `streamClients` (deviceId -> Set of HTTP responses);
* the session server (part_000): OTP / session-token endpoints over a
  key-value store, with `sessions/<token>` records.

The JS `Map` objects are embedded as association lists with `tget`, `tset`
and `tdel`; WebSocket and HTTP response handles are natural numbers; frame
payloads are lists of bytes (naturals).  Write failures of a sink are
modelled by a boolean oracle `fails`, and a write that may throw is an
`Except String Unit` value.
-/

namespace EspRelay

/-- Lookup in an association table, mirroring `Map.get`. -/
def tget {κ α : Type} [DecidableEq κ] : List (κ × α) → κ → Option α
  | [], _ => none
  | (k, v) :: rest, key => if k = key then some v else tget rest key

/-- Insert or replace in an association table, mirroring `Map.set`. -/
def tset {κ α : Type} [DecidableEq κ] : List (κ × α) → κ → α → List (κ × α)
  | [], key, v => [(key, v)]
  | (k, w) :: rest, key, v =>
      if k = key then (key, v) :: rest else (k, w) :: tset rest key v

/-- Remove a key from an association table, mirroring `Map.delete`. -/
def tdel {κ α : Type} [DecidableEq κ] : List (κ × α) → κ → List (κ × α)
  | [], _ => []
  | (k, w) :: rest, key =>
      if k = key then tdel rest key else (k, w) :: tdel rest key

/-- Add a member to the set stored under `id`, mirroring
`if (!m.has(id)) m.set(id, new Set()); m.get(id).add(ws)`. -/
def addSub (m : List (String × List Nat)) (id : String) (ws : Nat) :
    List (String × List Nat) :=
  match tget m id with
  | none => tset m id [ws]
  | some s => tset m id (if ws ∈ s then s else s ++ [ws])

/-- Remove a member from the set stored under `id`, mirroring
`const s = m.get(id); if (s) s.delete(ws)`. -/
def delSub (m : List (String × List Nat)) (id : String) (ws : Nat) :
    List (String × List Nat) :=
  match tget m id with
  | none => m
  | some s => tset m id (s.filter (fun v => v != ws))

/-- Write to a sink (an HTTP response `res.write` or a viewer `ws.send`);
throws exactly when the failure oracle marks the sink as broken. -/
def sinkWrite (fails : Nat → Bool) (r : Nat) : Except String Unit :=
  if fails r then Except.error "EPIPE" else Except.ok ()

/-- Fan-out of one binary frame to the HTTP stream subscribers
(server.js lines 434-450).  Iterates over a snapshot of the set; each
writes for each subscriber sit in a dedicated `try`; on a throw the subscriber is
deleted from the set and its response ended (`catch` branch).  Returns
`(set after the publish, sinks that received the frame, sinks attempted)`;
an uncaught error would surface as `Except.error`. -/
def fanoutStream (fails : Nat → Bool) :
    List Nat → Except String (List Nat × List Nat × List Nat)
  | [] => Except.ok ([], [], [])
  | r :: rest =>
      let wrote : Bool :=
        match sinkWrite fails r with
        | Except.ok _ => true
        | Except.error _ => false
      match fanoutStream fails rest with
      | Except.error e => Except.error e
      | Except.ok (kept, delivered, attempted) =>
          Except.ok (if wrote then r :: kept else kept,
                     if wrote then r :: delivered else delivered,
                     r :: attempted)

/-- Fan-out of one binary frame to the WebSocket viewers of variant A
(server.js lines 233-243).  Each open viewer is sent the frame inside
`try { v.send(msg) } catch (e) {}`; a failed send is swallowed and the
viewer is NOT removed from the set.  Returns
`(set after the publish, viewers that received the frame, viewers attempted)`. -/
def fanoutViewers (isOpen fails : Nat → Bool) :
    List Nat → Except String (List Nat × List Nat × List Nat)
  | [] => Except.ok ([], [], [])
  | v :: rest =>
      let sent : Bool :=
        if isOpen v then
          match sinkWrite fails v with
          | Except.ok _ => true
          | Except.error _ => false
        else false
      match fanoutViewers isOpen fails rest with
      | Except.error e => Except.error e
      | Except.ok (kept, delivered, attempted) =>
          Except.ok (v :: kept,
                     if sent then v :: delivered else delivered,
                     if isOpen v then v :: attempted else attempted)

/-- State of the MJPEG relay (variant B, server.js lines 404-407), plus the
per-socket `ws.deviceId` field, the set of sockets whose close event has
fired (`readyState` no longer OPEN), and the handles the relay code itself
explicitly closed (no handler of variant B ever closes a displaced handle). -/
structure RelayB where
  devices : List (String × Nat)
  lastFrame : List (String × List Nat)
  streamClients : List (String × List Nat)
  wsDeviceId : List (Nat × String)
  closedWs : List Nat
  serverClosed : List Nat

/-- Initial state of the MJPEG relay: all maps empty. -/
def initB : RelayB :=
  { devices := [], lastFrame := [], streamClients := [],
    wsDeviceId := [], closedWs := [], serverClosed := [] }

/-- Hello handshake of variant B (server.js lines 458-463):
`ws.deviceId = json.deviceId; devices.set(json.deviceId, ws)`.
No close is performed on a previously stored handle. -/
def helloB (ws : Nat) (id : String) (st : RelayB) : RelayB :=
  { st with wsDeviceId := tset st.wsDeviceId ws id,
            devices := tset st.devices id ws }

/-- Close handler of variant B (server.js lines 482-488): when the socket
carried a deviceId, `devices.delete` and `lastFrame.delete` are called
unconditionally, with no check that the stored handle is this socket. -/
def closeB (ws : Nat) (st : RelayB) : RelayB :=
  match tget st.wsDeviceId ws with
  | some id =>
      { st with devices := tdel st.devices id,
                lastFrame := tdel st.lastFrame id,
                closedWs := ws :: st.closedWs }
  | none => { st with closedWs := ws :: st.closedWs }

/-- Binary-frame handler of variant B (server.js lines 426-451): store the
frame in `lastFrame`, then fan it out to the HTTP stream subscribers.
`fanoutStream` never returns an error (proved below); the error branch
mirrors what an uncaught throw would leave behind. -/
def binaryB (ws : Nat) (buf : List Nat) (fails : Nat → Bool) (st : RelayB) :
    RelayB :=
  match tget st.wsDeviceId ws with
  | none => st
  | some id =>
      match tget st.streamClients id with
      | none => { st with lastFrame := tset st.lastFrame id buf }
      | some subs =>
          match fanoutStream fails subs with
          | Except.ok (kept, _, _) =>
              { st with lastFrame := tset st.lastFrame id buf,
                        streamClients := tset st.streamClients id kept }
          | Except.error _ => { st with lastFrame := tset st.lastFrame id buf }

/-- Result of the immediate part of `POST /api/device/:id/capture`
(server.js lines 554-567): a cached frame is returned at once, else a
missing or non-open device yields 404 `device_offline`, else the handler
sends `capture_now` and starts the 250ms polling wait. -/
inductive CaptureStart
  | okFrame (bytes : List Nat)
  | offline404
  | startPoll
deriving DecidableEq

/-- Immediate part of the capture endpoint (server.js lines 554-567).
The cached-frame check runs before the device-offline check. -/
def captureEndpoint (id : String) (st : RelayB) : CaptureStart :=
  match tget st.lastFrame id with
  | some c => CaptureStart.okFrame c
  | none =>
      match tget st.devices id with
      | some ws =>
          if ws ∈ st.closedWs then CaptureStart.offline404
          else CaptureStart.startPoll
      | none => CaptureStart.offline404

/-- Outcome of the capture polling wait: a 200 with jpeg bytes, a 504
`timeout`, or `stalled` when the supplied fuel runs out before the loop
reaches a terminal branch. -/
inductive PollOutcome
  | fulfilled (bytes : List Nat)
  | timeout504
  | stalled
deriving DecidableEq

/-- Polling wait of the capture endpoint (server.js lines 569-583): the
interval fires at ticks 1, 2, ... (elapsed time `interval * tick` ms); each
tick first checks the frame cache (`f && f.length > 0` returns 200), then
checks `elapsed > timeoutMs` (returns 504), otherwise polls again.
`frameAt tick` is the cache contents seen at that tick. -/
def capturePoll (frameAt : Nat → Option (List Nat)) (timeoutMs interval : Nat) :
    Nat → Nat → PollOutcome
  | 0, _ => PollOutcome.stalled
  | fuel + 1, tick =>
      match frameAt tick with
      | some f =>
          if 0 < f.length then PollOutcome.fulfilled f
          else if timeoutMs < interval * tick then PollOutcome.timeout504
          else capturePoll frameAt timeoutMs interval fuel (tick + 1)
      | none =>
          if timeoutMs < interval * tick then PollOutcome.timeout504
          else capturePoll frameAt timeoutMs interval fuel (tick + 1)

/-- Result of accepting `GET /stream/:id` (server.js lines 507-542):
the frame written immediately to the new response (if any), whether a
`capture_now` command was sent to the device, and the updated state. -/
structure StreamAccept where
  immediate : Option (List Nat)
  captureNowSent : Bool
  state : RelayB

/-- Handler of `GET /stream/:id` (server.js lines 507-542): if a cached
last frame exists it is written to the new response right away; otherwise,
if the device is online, a `capture_now` command is sent.  In every case
the response is then registered as a stream subscriber. -/
def streamHandler (id : String) (res : Nat) (st : RelayB) : StreamAccept :=
  match tget st.lastFrame id with
  | some l =>
      { immediate := some l, captureNowSent := false,
        state := { st with streamClients := addSub st.streamClients id res } }
  | none =>
      let sendCap : Bool :=
        match tget st.devices id with
        | some ws => decide (ws ∉ st.closedWs)
        | none => false
      { immediate := none, captureNowSent := sendCap,
        state := { st with streamClients := addSub st.streamClients id res } }

/-- Close of one stream response (server.js lines 539-541):
`req.on close` removes the response from the subscriber set. -/
def streamClose (id : String) (res : Nat) (st : RelayB) : RelayB :=
  { st with streamClients := delSub st.streamClients id res }

/-- Subscribers currently registered for `id`. -/
def subsOf (st : RelayB) (id : String) : List Nat :=
  (tget st.streamClients id).getD []

/-- In-memory session record of variant A (server.js line 47):
`deviceId -> token, email, expiresAt`. -/
structure Sess where
  token : String
  email : String
  expiresAt : Nat
deriving DecidableEq

/-- State of the Firebase relay (variant A, server.js lines 46-49), plus
the per-socket `ws.deviceId` / `ws.role` fields and the handles the relay
code itself explicitly closed (no handler of variant A closes a displaced
handle either). -/
structure RelayA where
  sessions : List (String × Sess)
  clients : List (String × Nat)
  viewers : List (String × List Nat)
  wsDeviceIdA : List (Nat × String)
  wsRoleA : List (Nat × String)
  serverClosedA : List Nat

/-- Initial state of the Firebase relay: all maps empty. -/
def initA : RelayA :=
  { sessions := [], clients := [], viewers := [],
    wsDeviceIdA := [], wsRoleA := [], serverClosedA := [] }

/-- Hello handshake of variant A (server.js lines 182-222):
sets `ws.deviceId` and `ws.role`; a camera is stored with
`clients.set(obj.deviceId, ws)` (no close of a prior handle), a viewer is
added to the viewer set of its device. -/
def helloA (ws : Nat) (id role : String) (st : RelayA) : RelayA :=
  let st1 := { st with wsDeviceIdA := tset st.wsDeviceIdA ws id,
                       wsRoleA := tset st.wsRoleA ws role }
  if role = "camera" then { st1 with clients := tset st1.clients id ws }
  else if role = "viewer" then { st1 with viewers := addSub st1.viewers id ws }
  else st1

/-- Close handler of variant A (server.js lines 251-262): a camera entry is
deleted only when the stored handle is exactly the closing socket
(`if (mapped === ws) clients.delete(...)`); a viewer is removed from its
set. -/
def closeA (ws : Nat) (st : RelayA) : RelayA :=
  match tget st.wsRoleA ws, tget st.wsDeviceIdA ws with
  | some r, some id =>
      if r = "camera" then
        match tget st.clients id with
        | some w => if w = ws then { st with clients := tdel st.clients id } else st
        | none => st
      else if r = "viewer" then { st with viewers := delSub st.viewers id ws }
      else st
  | _, _ => st

/-- Binary-frame handler of variant A (server.js lines 232-244): a camera
frame is forwarded to the viewers of its device with `fanoutViewers`;
variant A keeps no frame cache. -/
def binaryA (ws : Nat) (isOpen fails : Nat → Bool) (st : RelayA) : RelayA :=
  match tget st.wsRoleA ws, tget st.wsDeviceIdA ws with
  | some r, some id =>
      if r = "camera" then
        match tget st.viewers id with
        | none => st
        | some s =>
            match fanoutViewers isOpen fails s with
            | Except.ok (kept, _, _) => { st with viewers := tset st.viewers id kept }
            | Except.error _ => st
      else st
  | _, _ => st

/-- Result of the session check of `POST /command`. -/
inductive CommandAuth
  | validSession
  | invalidSession
  | internalError
deriving DecidableEq

/-- Session validation of `POST /command` (server.js lines 99-120): the
in-memory `sessions` map is checked first; only when that check fails
(missing entry, wrong email or token, or `now > expiresAt`) is the
external store consulted (`dbSess`, an `Except` since the read can throw).
A store hit refreshes the in-memory cache.  Returns the auth outcome and
the updated `sessions` map. -/
def commandValidate (sessions : List (String × Sess)) (deviceId email token : String)
    (dbSess : Except String (Option Sess)) (now : Nat) :
    CommandAuth × List (String × Sess) :=
  let fallback : CommandAuth × List (String × Sess) :=
    match dbSess with
    | Except.error _ => (CommandAuth.internalError, sessions)
    | Except.ok none => (CommandAuth.invalidSession, sessions)
    | Except.ok (some d) =>
        if d.email = email ∧ d.token = token ∧ now < d.expiresAt then
          (CommandAuth.validSession, tset sessions deviceId d)
        else (CommandAuth.invalidSession, sessions)
  match tget sessions deviceId with
  | some s =>
      if s.email = email ∧ s.token = token ∧ now ≤ s.expiresAt then
        (CommandAuth.validSession, sessions)
      else fallback
  | none => fallback

/-- Session record stored at `sessions/<token>` by the session server
(part_000 lines 192-199); `used` starts false and `usedAt` absent. -/
structure SessionRec where
  deviceId : String
  createdAt : Nat
  expiresAt : Nat
  used : Bool
  usedAt : Option Nat
deriving DecidableEq

/-- Creation of a session record by `POST /verify-otp` (part_000 lines
187-199): a freshly generated token is mapped to a record with
`used := false`. -/
def createSession (ss : List (String × SessionRec)) (token deviceId : String)
    (now ttl : Nat) : List (String × SessionRec) :=
  tset ss token
    { deviceId := deviceId, createdAt := now, expiresAt := now + ttl,
      used := false, usedAt := none }

/-- Result of `POST /start-stream`. -/
inductive StartStreamRes
  | ok
  | invalidSession
  | sessionUsed
  | deviceMismatch
  | sessionExpired
deriving DecidableEq

/-- Handler of `POST /start-stream` (part_000 lines 218-259): looks up the
session by token; rejects a missing record, then `s.used`, then a deviceId
mismatch, then expiry, in that order; on success marks the record
`used := true, usedAt := now`. -/
def startStream (ss : List (String × SessionRec)) (deviceId sessionToken : String)
    (now : Nat) : StartStreamRes × List (String × SessionRec) :=
  match tget ss sessionToken with
  | none => (StartStreamRes.invalidSession, ss)
  | some s =>
      if s.used then (StartStreamRes.sessionUsed, ss)
      else if s.deviceId ≠ deviceId then (StartStreamRes.deviceMismatch, ss)
      else if s.expiresAt < now then (StartStreamRes.sessionExpired, ss)
      else (StartStreamRes.ok,
            tset ss sessionToken { s with used := true, usedAt := some now })

/-- Handler of `POST /stop-stream` (part_000 lines 265-291): only the
device node is updated; the sessions store is untouched. -/
def stopStream (ss : List (String × SessionRec)) : List (String × SessionRec) :=
  ss

/-- Used flag of an optional session record. -/
def usedFlag (o : Option SessionRec) : Option Bool :=
  o.map SessionRec.used

/-! ### Helper lemmas about the association tables -/

theorem tget_tset_self {κ α : Type} [DecidableEq κ] (m : List (κ × α)) (k : κ) (v : α) :
    tget (tset m k v) k = some v := by
  induction m with
  | nil => simp [tget, tset]
  | cons p rest ih =>
      by_cases h : p.1 = k <;> simp [tget, tset, h, ih]

theorem tget_tset_ne {κ α : Type} [DecidableEq κ] (m : List (κ × α)) (k k2 : κ) (v : α)
    (h : k ≠ k2) : tget (tset m k v) k2 = tget m k2 := by
  induction m with
  | nil => simp [tget, tset, h]
  | cons p rest ih =>
      by_cases hp : p.1 = k
      · simp [tget, tset, hp, h]
      · by_cases hp2 : p.1 = k2 <;>
          simp [tget, tset, hp, hp2, h, Ne.symm h, ih]

theorem tget_tdel_self {κ α : Type} [DecidableEq κ] (m : List (κ × α)) (k : κ) :
    tget (tdel m k) k = none := by
  induction m with
  | nil => simp [tget, tdel]
  | cons p rest ih =>
      by_cases h : p.1 = k <;> simp [tget, tdel, h, ih]

theorem tget_tdel_ne {κ α : Type} [DecidableEq κ] (m : List (κ × α)) (k k2 : κ)
    (h : k ≠ k2) : tget (tdel m k) k2 = tget m k2 := by
  induction m with
  | nil => simp [tget, tdel]
  | cons p rest ih =>
      by_cases hp : p.1 = k
      · simp [tget, tdel, hp, h, Ne.symm h, ih]
      · by_cases hp2 : p.1 = k2 <;>
          simp [tget, tdel, hp, hp2, h, Ne.symm h, ih]

theorem mem_addSub (m : List (String × List Nat)) (id : String) (ws : Nat) :
    ws ∈ (tget (addSub m id ws) id).getD [] := by
  unfold addSub
  cases h : tget m id with
  | none => simp [tget_tset_self]
  | some s =>
      by_cases hm : ws ∈ s <;> simp [tget_tset_self, hm]

/-! ### Characterizations of the two fan-out loops -/

theorem fanoutStream_eq (fails : Nat → Bool) (l : List Nat) :
    fanoutStream fails l =
      Except.ok (l.filter (fun r => !fails r), l.filter (fun r => !fails r), l) := by
  induction l with
  | nil => simp [fanoutStream]
  | cons r rest ih =>
      cases hf : fails r <;>
        simp [fanoutStream, sinkWrite, hf, ih, List.filter_cons]

theorem fanoutViewers_eq (isOpen fails : Nat → Bool) (l : List Nat) :
    fanoutViewers isOpen fails l =
      Except.ok (l, l.filter (fun v => isOpen v && !fails v), l.filter isOpen) := by
  induction l with
  | nil => simp [fanoutViewers]
  | cons v rest ih =>
      cases ho : isOpen v <;> cases hf : fails v <;>
        simp [fanoutViewers, sinkWrite, ho, hf, ih, List.filter_cons]

/-! ### Helper lemmas about the binary-frame handler -/

theorem binaryB_wsDeviceId (ws : Nat) (buf : List Nat) (fails : Nat → Bool)
    (st : RelayB) : (binaryB ws buf fails st).wsDeviceId = st.wsDeviceId := by
  unfold binaryB
  repeat (first | rfl | split)

theorem binaryB_lastFrame (ws : Nat) (buf : List Nat) (fails : Nat → Bool)
    (st : RelayB) (id : String) (h : tget st.wsDeviceId ws = some id) :
    (binaryB ws buf fails st).lastFrame = tset st.lastFrame id buf := by
  unfold binaryB
  rw [h]
  split
  · rename_i heq
    exact Option.noConfusion heq
  · rename_i id2 heq
    injection heq with hi
    subst hi
    repeat (first | rfl | split)

/-! ### Claim C1 -/

/-- C1 counterexample: after `register("cam", 1)` followed by
`register("cam", 2)` (two hello handshakes in variant B), `lookup`
returns handle 2, but handle 1 has been closed zero times, not exactly
once — neither hello handler ever closes a displaced handle. -/
theorem c1_counterexample :
    tget (helloB 2 "cam" (helloB 1 "cam" initB)).devices "cam" = some 2 ∧
    (helloB 2 "cam" (helloB 1 "cam" initB)).serverClosed.count 1 ≠ 1 := by
  decide

/-- C1 (amended): after `register(id, h1)` followed by `register(id, h2)`,
`lookup(id)` returns `h2` in both variants, but the prior handle `h1` is
never closed by registration — the set of handles the relay has explicitly
closed is unchanged; the displaced transport is merely overwritten in the
map and left open. -/
theorem c1_register_overwrites_without_close (stB : RelayB) (stA : RelayA)
    (id : String) (h1 h2 : Nat) :
    tget (helloB h2 id (helloB h1 id stB)).devices id = some h2 ∧
    (helloB h2 id (helloB h1 id stB)).serverClosed = stB.serverClosed ∧
    tget (helloA h2 id "camera" (helloA h1 id "camera" stA)).clients id = some h2 ∧
    (helloA h2 id "camera" (helloA h1 id "camera" stA)).serverClosedA =
      stA.serverClosedA := by
  refine ⟨?_, rfl, ?_, ?_⟩
  · simp [helloB, tget_tset_self]
  · simp [helloA, tget_tset_self]
  · simp [helloA]

/-! ### Claim C4 -/

/-- C4 counterexample: in the variant-A viewer fan-out, a subscriber whose
send fails (here viewer 7, open, write throws) is NOT removed from the
set — the returned set still contains it, it received nothing, and it was
attempted — so a subsequent publish will attempt to write to it again,
contradicting the claim that a failing sink is removed. -/
theorem c4_counterexample :
    fanoutViewers (fun _ => true) (fun _ => true) [7] =
      Except.ok ([7], [], [7]) := rfl

/-- C4 (amended): in the HTTP-stream fan-out (variant B), every sink whose
write fails is removed from the subscriber set (the surviving set and the
delivered list are exactly the non-failing sinks, so a subsequent publish
attempts only those), the failure never aborts delivery to the rest, and no
error escapes the publish (the result is always `Except.ok`).  In the
WebSocket-viewer fan-out (variant A), a failed send is likewise isolated
and swallowed with no escaping error, but the failing viewer is NOT
removed: the set is returned unchanged, delivery reaches the open
non-failing viewers, and every open viewer — failing or not — is
attempted. -/
theorem c4_publish_failure_isolation (fails isOpen : Nat → Bool) (l : List Nat) :
    fanoutStream fails l =
      Except.ok (l.filter (fun r => !fails r), l.filter (fun r => !fails r), l) ∧
    fanoutViewers isOpen fails l =
      Except.ok (l, l.filter (fun v => isOpen v && !fails v), l.filter isOpen) :=
  ⟨fanoutStream_eq fails l, fanoutViewers_eq isOpen fails l⟩

/-! ### Claim C5 -/

/-- C5 counterexample: a reachable state in which no device connection is
registered for "cam" yet `captureOnce` does not fail with `DeviceOffline`:
handle 1 says hello for "cam", handle 2 says hello for "cam" (displacing
1), the stale handle 1 closes (variant B deletes the registry entry
unconditionally), then the still-open handle 2 pushes a frame.  Now the
registry has no entry for "cam", but the capture endpoint returns the
cached frame instead of `device_offline`. -/
theorem c5_counterexample :
    tget (binaryB 2 [255, 216] (fun _ => false)
        (closeB 1 (helloB 2 "cam" (helloB 1 "cam" initB)))).devices "cam" = none ∧
    captureEndpoint "cam"
        (binaryB 2 [255, 216] (fun _ => false)
          (closeB 1 (helloB 2 "cam" (helloB 1 "cam" initB)))) =
      CaptureStart.okFrame [255, 216] := by
  decide

/-- C5 (amended): when no device connection is registered for the identity
AND no cached frame exists for it, the capture endpoint fails with
`device_offline` immediately (it returns the 404 without entering the
polling wait); when a cached frame exists it is returned instead, even
with no device registered. -/
theorem c5_capture_offline_immediate (st : RelayB) (id : String)
    (h1 : tget st.lastFrame id = none) (h2 : tget st.devices id = none) :
    captureEndpoint id st = CaptureStart.offline404 := by
  simp [captureEndpoint, h1, h2]

/-- C5 witness: on the empty initial state, capturing from "cam2" yields
`device_offline` at once. -/
theorem c5_witness : captureEndpoint "cam2" initB = CaptureStart.offline404 :=
  c5_capture_offline_immediate initB "cam2" (by decide) (by decide)

/-! ### Claim C6 -/

/-- C6: subscribing via `GET /stream/:id` when a cached last frame exists
writes that frame to the new sink immediately (before any further publish)
and registers the sink as a subscriber; the statement puts no condition on
the device registry, so it covers identities with no current device
connection. -/
theorem c6_subscribe_replays_cached (st : RelayB) (id : String) (res : Nat)
    (l : List Nat) (h : tget st.lastFrame id = some l) :
    (streamHandler id res st).immediate = some l ∧
    res ∈ subsOf (streamHandler id res st).state id := by
  unfold streamHandler
  rw [h]
  exact ⟨rfl, mem_addSub st.streamClients id res⟩

/-- C6 witness: a state whose only content is a cached frame for "cam"
(no device connection at all); the new subscriber 9 immediately receives
the cached frame and is registered. -/
theorem c6_witness :
    (streamHandler "cam" 9
        { initB with lastFrame := [("cam", [255, 216])] }).immediate =
      some [255, 216] ∧
    9 ∈ subsOf (streamHandler "cam" 9
        { initB with lastFrame := [("cam", [255, 216])] }).state "cam" :=
  c6_subscribe_replays_cached { initB with lastFrame := [("cam", [255, 216])] }
    "cam" 9 [255, 216] (by decide)

/-! ### Claim C7 -/

/-- C7: publishing `f1` then `f2` for the same identity leaves the frame
cache holding exactly `f2` (unconditional last-write-wins overwrite of the
single slot), and an identity with no published frame reads as absent. -/
theorem c7_lastFrame_last_write_wins (st : RelayB) (ws : Nat) (id : String)
    (f1 f2 : List Nat) (fails1 fails2 : Nat → Bool)
    (h : tget st.wsDeviceId ws = some id) :
    tget (binaryB ws f2 fails2 (binaryB ws f1 fails1 st)).lastFrame id = some f2 ∧
    tget initB.lastFrame id = none := by
  constructor
  · have h1 : tget (binaryB ws f1 fails1 st).wsDeviceId ws = some id := by
      rw [binaryB_wsDeviceId]
      exact h
    rw [binaryB_lastFrame _ _ _ _ _ h1, tget_tset_self]
  · rfl

/-- C7 witness: device 1 registers for "cam", pushes `[1]` then `[2, 3]`;
the cache reads `[2, 3]`, and the untouched initial cache reads absent. -/
theorem c7_witness :
    tget (binaryB 1 [2, 3] (fun _ => false)
        (binaryB 1 [1] (fun _ => false) (helloB 1 "cam" initB))).lastFrame "cam" =
      some [2, 3] ∧
    tget initB.lastFrame "cam" = none :=
  c7_lastFrame_last_write_wins (helloB 1 "cam" initB) 1 "cam" [1] [2, 3]
    (fun _ => false) (fun _ => false) (by decide)

/-! ### Claim C8 -/

/-- C8 counterexample: in variant B, handle 1 registers for "cam", handle 2
re-registers, then the stale handle 1 closes — and the newer registration
is destroyed: the registry reads absent, not handle 2, because the close
handler deletes unconditionally. -/
theorem c8_counterexample :
    tget (closeB 1 (helloB 2 "cam" (helloB 1 "cam" initB))).devices "cam" ≠
      some 2 ∧
    tget (closeB 1 (helloB 2 "cam" (helloB 1 "cam" initB))).devices "cam" =
      none := by
  decide

/-- C8 (amended): the guarded removal holds only in variant A — a stale
camera close leaves the newer registration in place (`mapped === ws`
check); in variant B the close handler removes the mapping for the closing
deviceId of the closing socket unconditionally, wiping whatever handle is currently
stored. -/
theorem c8_close_guarded_only_in_variant_a :
    (∀ (stA : RelayA) (h1 h2 : Nat) (id : String), h1 ≠ h2 →
       tget (closeA h1 (helloA h2 id "camera"
           (helloA h1 id "camera" stA))).clients id = some h2) ∧
    (∀ (stB : RelayB) (ws : Nat) (id : String), tget stB.wsDeviceId ws = some id →
       tget (closeB ws stB).devices id = none) := by
  constructor
  · intro stA h1 h2 id hne
    have hr : tget (tset (tset stA.wsRoleA h1 "camera") h2 "camera") h1 =
        some "camera" := by
      rw [tget_tset_ne _ _ _ _ (Ne.symm hne), tget_tset_self]
    have hd : tget (tset (tset stA.wsDeviceIdA h1 id) h2 id) h1 = some id := by
      rw [tget_tset_ne _ _ _ _ (Ne.symm hne), tget_tset_self]
    have hc : tget (tset (tset stA.clients id h1) id h2) id = some h2 :=
      tget_tset_self _ _ _
    simp [closeA, helloA, hr, hd, hc, hne, Ne.symm hne]
  · intro stB ws id h
    simp [closeB, h, tget_tdel_self]

/-- C8 witness: a concrete run of the guarded variant-A close (handles 1
and 2 for "cam1", stale close of 1 keeps 2) and of the unconditional
variant-B delete (handle 5 registered for "cam2" is removed on close). -/
theorem c8_witness :
    tget (closeA 1 (helloA 2 "cam1" "camera"
        (helloA 1 "cam1" "camera" initA))).clients "cam1" = some 2 ∧
    tget (closeB 5 (helloB 5 "cam2" initB)).devices "cam2" = none :=
  ⟨(c8_close_guarded_only_in_variant_a).1 initA 1 2 "cam1" (by decide),
   (c8_close_guarded_only_in_variant_a).2 (helloB 5 "cam2" initB) 5 "cam2"
     (by decide)⟩

/-! ### Helper lemmas about the capture polling loop -/

theorem capturePoll_succ (frameAt : Nat → Option (List Nat))
    (timeoutMs interval fuel tick : Nat) :
    capturePoll frameAt timeoutMs interval (fuel + 1) tick =
      match frameAt tick with
      | some f =>
          if 0 < f.length then PollOutcome.fulfilled f
          else if timeoutMs < interval * tick then PollOutcome.timeout504
          else capturePoll frameAt timeoutMs interval fuel (tick + 1)
      | none =>
          if timeoutMs < interval * tick then PollOutcome.timeout504
          else capturePoll frameAt timeoutMs interval fuel (tick + 1) := rfl

theorem capturePoll_none_timeout (frameAt : Nat → Option (List Nat))
    (timeoutMs interval : Nat) (hfa : ∀ t, frameAt t = none) :
    ∀ (fuel tick : Nat), timeoutMs < interval * (tick + fuel) →
      capturePoll frameAt timeoutMs interval (fuel + 1) tick =
        PollOutcome.timeout504 := by
  intro fuel
  induction fuel with
  | zero =>
      intro tick h
      have h2 : timeoutMs < interval * tick := by simpa using h
      rw [capturePoll_succ, hfa tick]
      dsimp only
      rw [if_pos h2]
  | succ n ih =>
      intro tick h
      by_cases hc : timeoutMs < interval * tick
      · rw [capturePoll_succ, hfa tick]
        dsimp only
        rw [if_pos hc]
      · have he : tick + 1 + n = tick + (n + 1) := by omega
        have hrec := ih (tick + 1) (by rw [he]; exact h)
        rw [capturePoll_succ, hfa tick]
        dsimp only
        rw [if_neg hc]
        exact hrec

theorem capturePoll_not_stalled (frameAt : Nat → Option (List Nat))
    (timeoutMs interval : Nat) :
    ∀ (fuel tick : Nat), timeoutMs < interval * (tick + fuel) →
      capturePoll frameAt timeoutMs interval (fuel + 1) tick ≠
        PollOutcome.stalled := by
  intro fuel
  induction fuel with
  | zero =>
      intro tick h
      have h2 : timeoutMs < interval * tick := by simpa using h
      cases hfa : frameAt tick with
      | none =>
          rw [capturePoll_succ, hfa]
          dsimp only
          rw [if_pos h2]
          simp
      | some f =>
          rw [capturePoll_succ, hfa]
          dsimp only
          by_cases hl : 0 < f.length
          · rw [if_pos hl]
            simp
          · rw [if_neg hl, if_pos h2]
            simp
  | succ n ih =>
      intro tick h
      have he : tick + 1 + n = tick + (n + 1) := by omega
      have hrec := ih (tick + 1) (by rw [he]; exact h)
      cases hfa : frameAt tick with
      | none =>
          rw [capturePoll_succ, hfa]
          dsimp only
          by_cases hc : timeoutMs < interval * tick
          · rw [if_pos hc]
            simp
          · rw [if_neg hc]
            exact hrec
      | some f =>
          rw [capturePoll_succ, hfa]
          dsimp only
          by_cases hl : 0 < f.length
          · rw [if_pos hl]
            simp
          · by_cases hc : timeoutMs < interval * tick
            · rw [if_neg hl, if_pos hc]
              simp
            · rw [if_neg hl, if_neg hc]
              exact hrec

/-! ### Claim C9 -/

/-- C9: a capture wait (deadline 6000ms by default, 250ms poll period)
that never receives a frame returns the 504 Timeout once the deadline has
elapsed: with 25 ticks of fuel — elapsed time 6250ms, one poll period past
the deadline — the outcome is `timeout504`; through the first 24 ticks
(elapsed 6000ms, deadline not yet exceeded) the wait is still pending; and
for an arbitrary frame schedule the wait never needs more than 25 ticks to
reach a terminal outcome, so no caller blocks indefinitely. -/
theorem c9_poll_expires_within_deadline (fuel : Nat)
    (fa : Nat → Option (List Nat)) (h : 25 ≤ fuel) :
    capturePoll (fun _ => none) 6000 250 fuel 1 = PollOutcome.timeout504 ∧
    capturePoll (fun _ => none) 6000 250 24 1 = PollOutcome.stalled ∧
    capturePoll fa 6000 250 fuel 1 ≠ PollOutcome.stalled := by
  obtain ⟨k, rfl⟩ : ∃ k, fuel = k + 25 := ⟨fuel - 25, by omega⟩
  refine ⟨?_, by decide, ?_⟩
  · exact capturePoll_none_timeout (fun _ => none) 6000 250 (fun _ => rfl)
      (k + 24) 1 (by omega)
  · exact capturePoll_not_stalled fa 6000 250 (k + 24) 1 (by omega)

/-- C9 witness: with exactly 25 ticks of fuel the unresolved wait returns
Timeout, and a wait whose device answers at once does not stall either. -/
theorem c9_witness :
    capturePoll (fun _ => none) 6000 250 25 1 = PollOutcome.timeout504 ∧
    capturePoll (fun _ => none) 6000 250 24 1 = PollOutcome.stalled ∧
    capturePoll (fun _ => some [1]) 6000 250 25 1 ≠ PollOutcome.stalled :=
  c9_poll_expires_within_deadline 25 (fun _ => some [1]) (by decide)

/-! ### Claim C2 -/

/-- C2 counterexample: device 1 registers for "cam" and a capture is
issued (the endpoint enters the polling wait since no frame is cached);
the device connection is then torn down.  The pending capture is NOT
forced to any Failed state: ten polling ticks after the teardown it is
still unresolved, and it finally terminates only after the full 6s
deadline with the 504 Timeout response — the handler has no
TransportFailure outcome at all, contradicting the claim that all pending
commands transition to Failed and awaiting callers get TransportFailure. -/
theorem c2_counterexample :
    captureEndpoint "cam" (helloB 1 "cam" initB) = CaptureStart.startPoll ∧
    capturePoll (fun _ => tget (closeB 1 (helloB 1 "cam" initB)).lastFrame "cam")
      6000 250 10 1 = PollOutcome.stalled ∧
    capturePoll (fun _ => tget (closeB 1 (helloB 1 "cam" initB)).lastFrame "cam")
      6000 250 25 1 = PollOutcome.timeout504 := by
  decide

/-- C2 (amended): tearing down the connection of a device deletes its cached
frame, so every capture still pending for that device can never be
fulfilled; each pending wait keeps polling until its own deadline elapses
and then returns the 504 Timeout — the callers are not failed at teardown
time and there is no TransportFailure result. -/
theorem c2_teardown_pending_times_out (st : RelayB) (ws : Nat) (id : String)
    (fuel : Nat) (hws : tget st.wsDeviceId ws = some id) (hf : 25 ≤ fuel) :
    tget (closeB ws st).lastFrame id = none ∧
    capturePoll (fun _ => tget (closeB ws st).lastFrame id) 6000 250 fuel 1 =
      PollOutcome.timeout504 := by
  have hnone : tget (closeB ws st).lastFrame id = none := by
    simp [closeB, hws, tget_tdel_self]
  refine ⟨hnone, ?_⟩
  obtain ⟨k, rfl⟩ : ∃ k, fuel = k + 25 := ⟨fuel - 25, by omega⟩
  exact capturePoll_none_timeout _ 6000 250 (fun _ => hnone) (k + 24) 1 (by omega)

/-- C2 witness: a concrete teardown of device 1 ("cam") with a pending
capture; after the close the cache is empty and the wait times out. -/
theorem c2_witness :
    tget (closeB 1 (helloB 1 "cam" initB)).lastFrame "cam" = none ∧
    capturePoll (fun _ => tget (closeB 1 (helloB 1 "cam" initB)).lastFrame "cam")
      6000 250 25 1 = PollOutcome.timeout504 :=
  c2_teardown_pending_times_out (helloB 1 "cam" initB) 1 "cam" 25
    (by decide) (by decide)

/-! ### Claim C3 -/

/-- C3 counterexample: device "cam" holds an in-memory cached session
(token "t", email "e", expiry 1000).  A first call at t=100 succeeds while
the store still has the session.  The session is then revoked in the
external store (the store read yields nothing), yet the next call at
t=600 with the same credential still succeeds — the in-memory check
short-circuits and the store is never consulted, contradicting the claim
that expiry and revocation are re-checked fresh against the external store
on every call. -/
theorem c3_counterexample :
    (commandValidate [("cam", ⟨"t", "e", 1000⟩)] "cam" "e" "t"
        (Except.ok (some ⟨"t", "e", 1000⟩)) 100).1 = CommandAuth.validSession ∧
    (commandValidate [("cam", ⟨"t", "e", 1000⟩)] "cam" "e" "t"
        (Except.ok none) 600).1 = CommandAuth.validSession := by
  decide

/-- C3 (amended): the expiry of the cached record is re-checked on every
call, but revocation is not — the external store is consulted only when
the in-memory check fails.  A matching unexpired in-memory session
validates regardless of what the store holds (the credential keeps working
after store-side revocation until its cached expiry), while a cached
session whose expiry has passed falls through to the store and, the
session being revoked there, is rejected. -/
theorem c3_cache_shortcircuits_revocation :
    (∀ (sessions : List (String × Sess)) (dev e t : String) (s : Sess)
       (db : Except String (Option Sess)) (now : Nat),
       tget sessions dev = some s → s.email = e → s.token = t →
       now ≤ s.expiresAt →
       (commandValidate sessions dev e t db now).1 = CommandAuth.validSession) ∧
    (∀ (sessions : List (String × Sess)) (dev e t : String) (s : Sess) (now : Nat),
       tget sessions dev = some s → s.expiresAt < now →
       (commandValidate sessions dev e t (Except.ok none) now).1 =
         CommandAuth.invalidSession) := by
  constructor
  · intro sessions dev e t s db now hget he ht hle
    simp [commandValidate, hget, he, ht, hle]
  · intro sessions dev e t s now hget hlt
    simp [commandValidate, hget, not_le.mpr hlt]

/-- C3 witness: the cached session for "cam" (expiry 1000) validates at
t=500 although the store is empty, and is rejected at t=2000 when the
cache has expired and the store (revoked) has nothing. -/
theorem c3_witness :
    (commandValidate [("cam", ⟨"t", "e", 1000⟩)] "cam" "e" "t"
        (Except.ok none) 500).1 = CommandAuth.validSession ∧
    (commandValidate [("cam", ⟨"t", "e", 1000⟩)] "cam" "e" "t"
        (Except.ok none) 2000).1 = CommandAuth.invalidSession :=
  ⟨(c3_cache_shortcircuits_revocation).1 [("cam", ⟨"t", "e", 1000⟩)] "cam" "e"
      "t" ⟨"t", "e", 1000⟩ (Except.ok none) 500 (by decide) rfl rfl (by decide),
   (c3_cache_shortcircuits_revocation).2 [("cam", ⟨"t", "e", 1000⟩)] "cam" "e"
      "t" ⟨"t", "e", 1000⟩ 2000 (by decide) (by decide)⟩

/-! ### Claim C10 -/

/-- C10: a session token is single-use for starting a stream.  A
successful `start-stream` marks the session record `used := true`, and a
subsequent `start-stream` presenting the same token fails with
`session_used` (whatever deviceId and time it presents, since the used
check precedes the mismatch and expiry checks).  Once set, the flag is
never cleared: a later `start-stream` on any token leaves a used record
used, and a `verify-otp` creating a fresh token distinct from it does
too (`stop-stream` does not touch the sessions store at all). -/
theorem c10_session_token_single_use :
    (∀ (ss : List (String × SessionRec)) (dev tok : String) (now : Nat)
       (dev2 : String) (now2 : Nat),
       (startStream ss dev tok now).1 = StartStreamRes.ok →
       usedFlag (tget (startStream ss dev tok now).2 tok) = some true ∧
       (startStream (startStream ss dev tok now).2 dev2 tok now2).1 =
         StartStreamRes.sessionUsed) ∧
    (∀ (ss : List (String × SessionRec)) (dev2 tok2 tok : String) (now2 : Nat),
       usedFlag (tget ss tok) = some true →
       usedFlag (tget (startStream ss dev2 tok2 now2).2 tok) = some true) ∧
    (∀ (ss : List (String × SessionRec)) (tok tok2 dev : String) (now ttl : Nat),
       tok2 ≠ tok → usedFlag (tget ss tok) = some true →
       usedFlag (tget (createSession ss tok2 dev now ttl) tok) = some true) := by
  refine ⟨?_, ?_, ?_⟩
  · intro ss dev tok now dev2 now2 hok
    cases hg : tget ss tok with
    | none => simp [startStream, hg] at hok
    | some s =>
        by_cases hu : s.used
        · simp [startStream, hg, hu] at hok
        · by_cases hdm : s.deviceId = dev
          · by_cases hex : s.expiresAt < now
            · simp [startStream, hg, hu, hdm, hex] at hok
            · constructor
              · simp [startStream, hg, hu, hdm, hex, usedFlag, tget_tset_self]
              · simp [startStream, hg, hu, hdm, hex, tget_tset_self]
          · simp [startStream, hg, hu, hdm] at hok
  · intro ss dev2 tok2 tok now2 hused
    by_cases htok : tok2 = tok
    · subst htok
      cases hg : tget ss tok2 with
      | none => rw [hg] at hused; simp [usedFlag] at hused
      | some s =>
          have hu : s.used = true := by
            rw [hg] at hused; simpa [usedFlag] using hused
          simpa [startStream, hg, hu] using hused
    · cases hg : tget ss tok2 with
      | none => simpa [startStream, hg] using hused
      | some s =>
          by_cases hu : s.used
          · simpa [startStream, hg, hu] using hused
          · by_cases hdm : s.deviceId = dev2
            · by_cases hex : s.expiresAt < now2
              · simpa [startStream, hg, hu, hdm, hex] using hused
              · simpa [startStream, hg, hu, hdm, hex,
                  tget_tset_ne _ _ _ _ htok] using hused
            · simpa [startStream, hg, hu, hdm] using hused
  · intro ss tok tok2 dev now ttl hne hused
    simpa [createSession, tget_tset_ne _ _ _ _ hne] using hused

/-- C10 witness: token "T" (device "d", expiry 100, unused) starts a
stream at t=50 successfully; the record reads used and a second
start-stream with "T" fails with `session_used`; a used record survives a
further start-stream and the creation of a fresh token "U". -/
theorem c10_witness :
    (usedFlag (tget (startStream [("T", ⟨"d", 0, 100, false, none⟩)]
        "d" "T" 50).2 "T") = some true ∧
     (startStream (startStream [("T", ⟨"d", 0, 100, false, none⟩)]
        "d" "T" 50).2 "d2" "T" 60).1 = StartStreamRes.sessionUsed) ∧
    usedFlag (tget (startStream [("T", ⟨"d", 100, 200, true, some 5⟩)]
        "d" "T" 120).2 "T") = some true ∧
    usedFlag (tget (createSession [("T", ⟨"d", 100, 200, true, some 5⟩)]
        "U" "d" 0 10) "T") = some true :=
  ⟨(c10_session_token_single_use).1 [("T", ⟨"d", 0, 100, false, none⟩)]
      "d" "T" 50 "d2" 60 (by decide),
   (c10_session_token_single_use).2.1 [("T", ⟨"d", 100, 200, true, some 5⟩)]
      "d" "T" "T" 120 (by decide),
   (c10_session_token_single_use).2.2 [("T", ⟨"d", 100, 200, true, some 5⟩)]
      "T" "U" "d" 0 10 (by decide) (by decide)⟩

end EspRelay
